import Mathlib

/-!
Verification development for the medATM backend (Smart Medical Kiosk).

The embedding translates the route handlers of `backend/routes/esp32.js` and
`backend/routes/doctor.js` together with the Mongoose models
(`backend/models/Diagnosis.js`, `backend/models/Patient.js`) and the classifier
(`backend/utils/predictionLogic.js`) into pure Lean functions over an explicit
store state.

Modelling conventions:
* Sensor values are `Option ℚ`: `none` stands for a JavaScript `NaN`
  (non-numeric input).  Every JS comparison involving `NaN` is `false`, which
  the `num*` helpers reproduce.
* The MongoDB store is a pair of lists kept in insertion order.  `_id`s and
  `createdAt` stamps are drawn from one strictly increasing counter, so
  "sort by createdAt descending, take first" is "the match with the largest
  `createdAt`".  `save` on an existing document replaces the list entry with
  the same id; `save` on a fresh document appends.
* Mongoose runs schema validation on `save()` but (by default) not on
  `updateMany`/`updateOne`.  The only route whose write can leave a schema
  enum is `data_upload` (its computed `predictedDisease` can be the
  out-of-enum `"health is good"`), so `dataUpload` models that validation:
  an out-of-enum label makes the route answer its catch-block 500 error with
  nothing persisted.  The enum itself is `predictedDiseaseEnum`.
-/

/-- Schema `status` enum of `backend/models/Diagnosis.js`. -/
inductive Status where
  | collecting_data
  | prediction_made
  | pending_approval
  | approved
  | declined
  | medication_dispensed
  | completed
deriving DecidableEq, Repr

/-- One entry of the `sensorData` array (the object pushed by `data_upload`). -/
structure SensorPoint where
  bpm : Option ℚ
  spo2 : Option ℚ
  temperature : Option ℚ
deriving DecidableEq, Repr

/-- `backend/models/Patient.js`. -/
structure Patient where
  id : Nat
  name : String
  age : Nat
  phoneNumber : String
  doctorId : Nat
  kioskId : String
  isActive : Bool
  createdAt : Nat
deriving DecidableEq, Repr

/-- `backend/models/Diagnosis.js`. -/
structure Diagnosis where
  id : Nat
  patientId : Nat
  doctorId : Nat
  kioskId : String
  sensorData : List SensorPoint
  predictedDisease : String
  approvedDisease : String
  status : Status
  motorCommand : String
  commandExecuted : Bool
  createdAt : Nat
deriving DecidableEq, Repr

/-- The store: both collections in insertion order plus the id counter. -/
structure St where
  patients : List Patient
  diagnoses : List Diagnosis
  nextId : Nat
deriving DecidableEq, Repr

def emptySt : St := { patients := [], diagnoses := [], nextId := 1 }

/-- The `enum` of `predictedDisease` in `backend/models/Diagnosis.js`. -/
def predictedDiseaseEnum : List String := ["Disease A", "Disease B", "Undetermined", "N/A"]

/-! JS numeric comparisons on possibly-NaN values: any comparison with NaN is false. -/

def numGE (x : Option ℚ) (c : ℚ) : Bool :=
  match x with
  | some v => decide (c ≤ v)
  | none => false

def numLE (x : Option ℚ) (c : ℚ) : Bool :=
  match x with
  | some v => decide (v ≤ c)
  | none => false

def numLT (x : Option ℚ) (c : ℚ) : Bool :=
  match x with
  | some v => decide (v < c)
  | none => false

def numGT (x : Option ℚ) (c : ℚ) : Bool :=
  match x with
  | some v => decide (c < v)
  | none => false

def numIsNaN (x : Option ℚ) : Bool := x.isNone

def numEqZero (x : Option ℚ) : Bool :=
  match x with
  | some v => decide (v = 0)
  | none => false

/-- The literal `37.8` of `predictionLogic.js`, written in the normalized form
`189/5` so that comparisons against it kernel-evaluate; `temp37_8_eq` below
confirms the value. -/
def temp37_8 : ℚ := ⟨189, 5, by decide, by decide⟩

/-- `predictDisease` of `backend/utils/predictionLogic.js`, line for line.
Note the early return `if(temperature >=25) return "health is good";` that
precedes the NaN/zero validation in the source. -/
def predictDisease (r : SensorPoint) : String :=
  if numGE r.temperature 25 then "health is good"
  else if numIsNaN r.bpm || numIsNaN r.spo2 || numIsNaN r.temperature
      || numEqZero r.bpm || numEqZero r.spo2 || numEqZero r.temperature then
    "Undetermined"
  else if numGE r.temperature temp37_8 && numLT r.spo2 95 && numGT r.bpm 90 then
    "Disease A"
  else if numLE r.temperature 36 && numGE r.spo2 96 && numLT r.bpm 70 then
    "Disease B"
  else
    "Undetermined"

/-! Store query helpers shared by the route handlers. -/

/-- `Patient.findOne({ kioskId, isActive: true })`: first match in insertion
order. -/
def findActivePatient (s : St) (k : String) : Option Patient :=
  s.patients.find? (fun p => decide (p.kioskId = k ∧ p.isActive = true))

/-- The `status: { $in: [...] }` filter shared by `data_upload` and the start
route: the three ingestion-phase statuses. -/
def ingestionStatus (st : Status) : Bool :=
  decide (st = Status.collecting_data ∨ st = Status.prediction_made ∨
    st = Status.pending_approval)

/-- Filter of the `Diagnosis.findOne` in `data_upload` (lines 31-35 of
`backend/routes/esp32.js`). -/
def sessionQueryMatch (pid : Nat) (k : String) (d : Diagnosis) : Bool :=
  decide (d.patientId = pid ∧ d.kioskId = k) && ingestionStatus d.status

/-- Filter shared by `get_motor_command` and `command_executed`:
`{ kioskId, status: 'approved', commandExecuted: false, motorCommand: { $ne: 'none' } }`. -/
def pendingCommandMatch (k : String) (d : Diagnosis) : Bool :=
  decide (d.kioskId = k ∧ d.status = Status.approved ∧
    d.commandExecuted = false ∧ d.motorCommand ≠ "none")

/-- One step of the scan behind `findOne(...).sort({ createdAt: -1 })`: keep
the candidate with the strictly larger `createdAt`. -/
def latestStep (pq : Diagnosis → Bool) (acc : Option Diagnosis) (d : Diagnosis) :
    Option Diagnosis :=
  match acc with
  | none => if pq d then some d else none
  | some b => if pq d then (if b.createdAt < d.createdAt then some d else some b) else some b

def latestMatchGo (pq : Diagnosis → Bool) : Option Diagnosis → List Diagnosis → Option Diagnosis
  | acc, [] => acc
  | acc, d :: rest => latestMatchGo pq (latestStep pq acc d) rest

/-- `Diagnosis.findOne(filter).sort({ createdAt: -1 })`: the matching document
with the largest `createdAt` (creation stamps are unique in this model). -/
def latestMatch (pq : Diagnosis → Bool) (ds : List Diagnosis) : Option Diagnosis :=
  latestMatchGo pq none ds

/-- Mongoose `save()` on a document already in the collection: replace the
entry with the same `_id`. -/
def saveDiagnosis (ds : List Diagnosis) (d : Diagnosis) : List Diagnosis :=
  ds.map (fun e => if e.id = d.id then d else e)

/-- `Patient.updateOne({ _id: pid }, { $set: { isActive: false } })`: update
the first document with that id. -/
def updateFirstPatient (ps : List Patient) (pid : Nat) : List Patient :=
  match ps with
  | [] => []
  | p :: rest =>
    if p.id = pid then { p with isActive := false } :: rest
    else p :: updateFirstPatient rest pid

/-! The five core operations. -/

/-- `Patient.updateMany({ kioskId, isActive: true }, { $set: { isActive: false } })`
(line 20 of `backend/routes/doctor.js`). -/
def deactivateKiosk (k : String) (ps : List Patient) : List Patient :=
  ps.map (fun p =>
    if p.kioskId = k ∧ p.isActive = true then { p with isActive := false } else p)

/-- `Diagnosis.updateMany({ kioskId, status: { $in: [collecting_data,
prediction_made, pending_approval] } }, { $set: { status: 'completed' } })`
(lines 21-24 of `backend/routes/doctor.js`). -/
def completeHanging (k : String) (ds : List Diagnosis) : List Diagnosis :=
  ds.map (fun d =>
    if d.kioskId = k ∧ ingestionStatus d.status = true then
      { d with status := Status.completed }
    else d)

/-- `POST /api/doctor/patient/start` (StartSession).  Returns the new
`(patientId, diagnosisId)`. -/
def startSession (s : St) (name : String) (age : Nat) (phoneNumber k : String)
    (doctorId : Nat) : Except String (St × Nat × Nat) :=
  if name = "" ∨ age = 0 ∨ k = "" then
    .error "Patient name, age, and kiosk ID are required"
  else
    let p : Patient :=
      { id := s.nextId, name := name, age := age, phoneNumber := phoneNumber,
        doctorId := doctorId, kioskId := k, isActive := true, createdAt := s.nextId }
    let d : Diagnosis :=
      { id := s.nextId + 1, patientId := p.id, doctorId := doctorId, kioskId := k,
        sensorData := [], predictedDisease := "N/A", approvedDisease := "N/A",
        status := Status.collecting_data, motorCommand := "none",
        commandExecuted := false, createdAt := s.nextId + 1 }
    .ok ({ patients := deactivateKiosk k s.patients ++ [p],
           diagnoses := completeHanging k s.diagnoses ++ [d],
           nextId := s.nextId + 2 }, p.id, d.id)

/-- The fallback `new Diagnosis({...})` of `data_upload` (lines 41-46 of
`backend/routes/esp32.js`); unset schema fields take their defaults. -/
def freshDiagnosis (s : St) (p : Patient) (k : String) : Diagnosis :=
  { id := s.nextId, patientId := p.id, doctorId := p.doctorId, kioskId := k,
    sensorData := [], predictedDisease := "N/A", approvedDisease := "N/A",
    status := Status.collecting_data, motorCommand := "none",
    commandExecuted := false, createdAt := s.nextId }

/-- Lines 50-62 of `backend/routes/esp32.js`: push the reading, store the
prediction, then the two consecutive `if` statements on `status`. -/
def ingestStep (d : Diagnosis) (r : SensorPoint) : Diagnosis :=
  let d1 := { d with sensorData := d.sensorData ++ [r],
                     predictedDisease := predictDisease r }
  let d2 :=
    if d1.status = Status.collecting_data ∧ d1.predictedDisease ≠ "Undetermined" then
      { d1 with status := Status.prediction_made }
    else d1
  if d2.status = Status.prediction_made ∧ d2.predictedDisease ≠ "Undetermined" then
    { d2 with status := Status.pending_approval }
  else d2

/-- `POST /api/esp32/data_upload` (IngestReading).  Returns the prediction
reported as `currentPrediction`.  The `diagnosisRecord.save()` at line 65 of
`backend/routes/esp32.js` runs Mongoose schema validation; of the fields this
route writes, only `predictedDisease` can leave its schema enum
(`Diagnosis.js` line 26), so the validation amounts to that membership check.
When it fails (label `"health is good"`, i.e. any reading with
temperature ≥ 25), the throw lands in the route's catch: a 500 answer with
`"Server error processing sensor data"` and nothing persisted. -/
def dataUpload (s : St) (k : String) (bpm spo2 temperature : Option ℚ) :
    Except String (St × String) :=
  if k = "" ∨ bpm = none ∨ spo2 = none ∨ temperature = none then
    .error "Invalid sensor data or missing kioskId"
  else
    match findActivePatient s k with
    | none => .error "No active patient session found for this kiosk."
    | some p =>
      let r : SensorPoint := { bpm := bpm, spo2 := spo2, temperature := temperature }
      match latestMatch (sessionQueryMatch p.id k) s.diagnoses with
      | some d =>
        let d1 := ingestStep d r
        if d1.predictedDisease ∈ predictedDiseaseEnum then
          .ok ({ s with diagnoses := saveDiagnosis s.diagnoses d1 }, d1.predictedDisease)
        else .error "Server error processing sensor data"
      | none =>
        let d1 := ingestStep (freshDiagnosis s p k) r
        if d1.predictedDisease ∈ predictedDiseaseEnum then
          .ok ({ s with diagnoses := s.diagnoses ++ [d1], nextId := s.nextId + 1 },
               d1.predictedDisease)
        else .error "Server error processing sensor data"

/-- `Diagnosis.findOne({ _id, doctorId })`. -/
def findDiagnosis (s : St) (i doctorId : Nat) : Option Diagnosis :=
  s.diagnoses.find? (fun d => decide (d.id = i ∧ d.doctorId = doctorId))

/-- The label-to-command chain of lines 124-130 of `backend/routes/doctor.js`. -/
def motorCommandFor (lbl : String) : String :=
  if lbl = "Disease A" then "activate_motor_1"
  else if lbl = "Disease B" then "activate_motor_2"
  else "none"

/-- `POST /api/doctor/diagnosis/approve` (ReviewSession).  Returns the motor
command it set. -/
def approveDiagnosis (s : St) (diagnosisId doctorId : Nat) (approvedDisease : String) :
    Except String (St × String) :=
  if approvedDisease = "" then
    .error "Diagnosis ID and approved disease are required."
  else
    match findDiagnosis s diagnosisId doctorId with
    | none => .error "Diagnosis record not found or unauthorized."
    | some d =>
      if d.status = Status.approved ∨ d.status = Status.medication_dispensed then
        .error "Diagnosis already approved or dispensed."
      else
        let d1 := { d with approvedDisease := approvedDisease,
                           status := Status.approved,
                           motorCommand := motorCommandFor approvedDisease }
        .ok ({ s with diagnoses := saveDiagnosis s.diagnoses d1,
                      patients := updateFirstPatient s.patients d.patientId },
             d1.motorCommand)

/-- `GET /api/esp32/get_motor_command` (FetchCommand).  Read-only: it takes no
state and returns none. -/
def getMotorCommand (s : St) (k : String) : Except String String :=
  if k = "" then .error "kioskId is required"
  else
    match latestMatch (pendingCommandMatch k) s.diagnoses with
    | some d => .ok d.motorCommand
    | none => .ok "none"

/-- `POST /api/esp32/command_executed` (ConfirmExecution).  No session id is
accepted; the target is re-derived as the latest approved, unexecuted,
commanded diagnosis for the kiosk.  Returns the confirmed diagnosis id. -/
def confirmExecution (s : St) (k execStatus : String) : Except String (St × Nat) :=
  if k = "" ∨ execStatus = "" then
    .error "kioskId and status are required"
  else
    match latestMatch (pendingCommandMatch k) s.diagnoses with
    | some d =>
      let d1 := { d with commandExecuted := true,
                         status := Status.medication_dispensed }
      .ok ({ s with diagnoses := saveDiagnosis s.diagnoses d1 }, d.id)
    | none => .error "No pending approved diagnosis found for this kiosk."

/-! Observation helpers used to state the properties. -/

def isOkE {α : Type} (e : Except String α) : Bool :=
  match e with
  | .ok _ => true
  | .error _ => false

def resStateStart (e : Except String (St × Nat × Nat)) : St :=
  match e with
  | .ok (s, _, _) => s
  | .error _ => emptySt

def resStateD (e : Except String (St × String)) : St :=
  match e with
  | .ok (s, _) => s
  | .error _ => emptySt

def resStateN (e : Except String (St × Nat)) : St :=
  match e with
  | .ok (s, _) => s
  | .error _ => emptySt

/-- Number of active Subjects (Patients) for a kiosk. -/
def activeSubjectCount (s : St) (k : String) : Nat :=
  s.patients.countP (fun p => decide (p.kioskId = k ∧ p.isActive = true))

/-- Number of Sessions for a kiosk in an ingestion-phase status. -/
def ingestionSessionCount (s : St) (k : String) : Nat :=
  s.diagnoses.countP (fun d => decide (d.kioskId = k) && ingestionStatus d.status)

/-- The invariant "`commandExecuted = true` iff `status = medication_dispensed`"
over every Session of a state. -/
def execInv (s : St) : Prop :=
  ∀ d ∈ s.diagnoses, d.commandExecuted = true ↔ d.status = Status.medication_dispensed

/-! Concrete states used by counterexamples and witnesses. -/

def pOld : Patient :=
  { id := 1, name := "Old", age := 30, phoneNumber := "", doctorId := 7,
    kioskId := "K1", isActive := true, createdAt := 1 }

def dApproved1 : Diagnosis :=
  { id := 2, patientId := 1, doctorId := 7, kioskId := "K1", sensorData := [],
    predictedDisease := "Disease B", approvedDisease := "Disease B",
    status := Status.approved, motorCommand := "activate_motor_1",
    commandExecuted := false, createdAt := 2 }

def dApproved2 : Diagnosis :=
  { id := 3, patientId := 1, doctorId := 7, kioskId := "K1", sensorData := [],
    predictedDisease := "Disease B", approvedDisease := "Disease B",
    status := Status.approved, motorCommand := "activate_motor_1",
    commandExecuted := false, createdAt := 3 }

def dCollect : Diagnosis :=
  { id := 2, patientId := 1, doctorId := 7, kioskId := "K1", sensorData := [],
    predictedDisease := "N/A", approvedDisease := "N/A",
    status := Status.collecting_data, motorCommand := "none",
    commandExecuted := false, createdAt := 2 }

def dPending : Diagnosis :=
  { id := 2, patientId := 1, doctorId := 7, kioskId := "K1", sensorData := [],
    predictedDisease := "Disease B", approvedDisease := "N/A",
    status := Status.pending_approval, motorCommand := "none",
    commandExecuted := false, createdAt := 2 }

/-- A kiosk with an active Subject and one stale `approved` Session. -/
def stStale : St := { patients := [pOld], diagnoses := [dApproved1], nextId := 4 }

/-- The race state: a second, newer approval appeared after the poll. -/
def stRace : St := { patients := [pOld], diagnoses := [dApproved1, dApproved2], nextId := 4 }

/-- An active Subject whose Session is still `collecting_data`. -/
def stCollect : St := { patients := [pOld], diagnoses := [dCollect], nextId := 3 }

def stPending : St := { patients := [pOld], diagnoses := [dPending], nextId := 3 }

/-- An active Subject with no Session at all. -/
def stNoDiag : St := { patients := [pOld], diagnoses := [], nextId := 5 }

def stAfterStart : St := resStateStart (startSession stStale "Alice" 30 "" "K1" 7)

def stRaceAfter : St := resStateN (confirmExecution stRace "K1" "motor_1_activated")

def stAfterConfirm : St := resStateN (confirmExecution stStale "K1" "motor_1_activated")

def stAfterApprove : St := resStateD (approveDiagnosis stPending 2 7 "Disease A")

def stC7After : St := resStateD (dataUpload stCollect "K1" (some 60) (some 97) (some 20))

/-- The reading of Scenario A: `{bpm:100, spo2:92, temperature:38.0}`. -/
def rScenarioA : SensorPoint := { bpm := some 100, spo2 := some 92, temperature := some 38 }

/-- A reading with `bpm = 0` (boundary case of the spec). -/
def rZeroBpm : SensorPoint := { bpm := some 0, spo2 := some 92, temperature := some 38 }

/-- A reading the source classifier maps to `"Disease B"`. -/
def rDiseaseB : SensorPoint := { bpm := some 60, spo2 := some 97, temperature := some 20 }

/-- A reading the source classifier maps to `"Undetermined"`. -/
def rUndet : SensorPoint := { bpm := some 80, spo2 := some 97, temperature := some 20 }

/-! Library lemmas about the store helpers. -/

theorem latestStep_some (pq : Diagnosis → Bool) (acc : Option Diagnosis)
    (x d : Diagnosis) (h : latestStep pq acc x = some d) :
    acc = some d ∨ (d = x ∧ pq x = true) := by
  cases acc with
  | none =>
    simp only [latestStep] at h
    split at h
    · rename_i hpq
      exact Or.inr ⟨(Option.some.inj h).symm, hpq⟩
    · cases h
  | some b =>
    simp only [latestStep] at h
    split at h
    · rename_i hpq
      split at h
      · exact Or.inr ⟨(Option.some.inj h).symm, hpq⟩
      · exact Or.inl h
    · exact Or.inl h

theorem latestMatchGo_some (pq : Diagnosis → Bool) :
    ∀ (ds : List Diagnosis) (acc : Option Diagnosis) (d : Diagnosis),
    latestMatchGo pq acc ds = some d → acc = some d ∨ (d ∈ ds ∧ pq d = true) := by
  intro ds
  induction ds with
  | nil => intro acc d h; exact Or.inl h
  | cons x rest ih =>
    intro acc d h
    rcases ih (latestStep pq acc x) d h with h1 | h1
    · rcases latestStep_some pq acc x d h1 with h2 | h2
      · exact Or.inl h2
      · exact Or.inr ⟨h2.1 ▸ List.mem_cons_self _ _, h2.1 ▸ h2.2⟩
    · exact Or.inr ⟨List.mem_cons_of_mem _ h1.1, h1.2⟩

theorem latestMatchGo_max (pq : Diagnosis → Bool) :
    ∀ (ds : List Diagnosis) (acc : Option Diagnosis) (d : Diagnosis),
    latestMatchGo pq acc ds = some d →
    (∀ b, acc = some b → b.createdAt ≤ d.createdAt) ∧
    (∀ e ∈ ds, pq e = true → e.createdAt ≤ d.createdAt) := by
  intro ds
  induction ds with
  | nil =>
    intro acc d h
    refine ⟨?_, ?_⟩
    · intro b hb
      rw [hb] at h
      cases h
      exact le_refl _
    · intro e he
      cases he
  | cons x rest ih =>
    intro acc d h
    have IH := ih (latestStep pq acc x) d h
    have hkeep : ∀ b, acc = some b →
        ∃ c, latestStep pq acc x = some c ∧ b.createdAt ≤ c.createdAt := by
      intro b hb
      rw [hb]
      by_cases hpq : pq x = true
      · by_cases hlt : b.createdAt < x.createdAt
        · refine ⟨x, ?_, le_of_lt hlt⟩
          simp only [latestStep]
          rw [if_pos hpq, if_pos hlt]
        · refine ⟨b, ?_, le_refl _⟩
          simp only [latestStep]
          rw [if_pos hpq, if_neg hlt]
      · refine ⟨b, ?_, le_refl _⟩
        simp only [latestStep]
        rw [if_neg hpq]
    have hx : pq x = true →
        ∃ c, latestStep pq acc x = some c ∧ x.createdAt ≤ c.createdAt := by
      intro hpq
      cases acc with
      | none =>
        refine ⟨x, ?_, le_refl _⟩
        simp only [latestStep]
        rw [if_pos hpq]
      | some b =>
        by_cases hlt : b.createdAt < x.createdAt
        · refine ⟨x, ?_, le_refl _⟩
          simp only [latestStep]
          rw [if_pos hpq, if_pos hlt]
        · refine ⟨b, ?_, Nat.le_of_not_lt hlt⟩
          simp only [latestStep]
          rw [if_pos hpq, if_neg hlt]
    refine ⟨?_, ?_⟩
    · intro b hb
      obtain ⟨c, hc, hbc⟩ := hkeep b hb
      exact le_trans hbc (IH.1 c hc)
    · intro e he hpe
      rcases List.mem_cons.mp he with he | he
      · obtain ⟨c, hc, hxc⟩ := hx (he ▸ hpe)
        exact le_trans (he ▸ hxc) (IH.1 c hc)
      · exact IH.2 e he hpe

theorem latestMatch_some_mem (pq : Diagnosis → Bool) (ds : List Diagnosis) (d : Diagnosis)
    (h : latestMatch pq ds = some d) : d ∈ ds ∧ pq d = true := by
  rcases latestMatchGo_some pq ds none d h with h1 | h1
  · cases h1
  · exact h1

theorem latestMatch_some_max (pq : Diagnosis → Bool) (ds : List Diagnosis) (d : Diagnosis)
    (h : latestMatch pq ds = some d) :
    ∀ e ∈ ds, pq e = true → e.createdAt ≤ d.createdAt :=
  (latestMatchGo_max pq ds none d h).2

theorem latestStep_skip (pq : Diagnosis → Bool) (acc : Option Diagnosis) (x : Diagnosis)
    (hx : pq x = false) : latestStep pq acc x = acc := by
  cases acc with
  | none =>
    simp only [latestStep]
    rw [if_neg (by simp [hx])]
  | some b =>
    simp only [latestStep]
    rw [if_neg (by simp [hx])]

theorem latestMatchGo_nomatch (pq : Diagnosis → Bool) :
    ∀ (ds : List Diagnosis) (acc : Option Diagnosis),
    (∀ e ∈ ds, pq e = false) → latestMatchGo pq acc ds = acc := by
  intro ds
  induction ds with
  | nil => intro acc _; rfl
  | cons x rest ih =>
    intro acc h
    have hx : pq x = false := h x (List.mem_cons_self _ _)
    unfold latestMatchGo
    rw [latestStep_skip pq acc x hx]
    exact ih acc (fun e he => h e (List.mem_cons_of_mem _ he))

theorem latestMatch_eq_none (pq : Diagnosis → Bool) (ds : List Diagnosis)
    (h : ∀ e ∈ ds, pq e = false) : latestMatch pq ds = none :=
  latestMatchGo_nomatch pq ds none h

theorem mem_saveDiagnosis_of_id (ds : List Diagnosis) (d e : Diagnosis)
    (hmem : d ∈ ds) (hid : d.id = e.id) : e ∈ saveDiagnosis ds e := by
  have h2 := List.mem_map_of_mem (fun x => if x.id = e.id then e else x) hmem
  simpa [saveDiagnosis, hid] using h2

theorem saveDiagnosis_forall {P : Diagnosis → Prop} (ds : List Diagnosis) (e : Diagnosis)
    (h : ∀ x ∈ ds, P x) (he : P e) : ∀ y ∈ saveDiagnosis ds e, P y := by
  intro y hy
  unfold saveDiagnosis at hy
  obtain ⟨x, hx, hxy⟩ := List.mem_map.mp hy
  by_cases hid : x.id = e.id
  · rw [if_pos hid] at hxy
    exact hxy ▸ he
  · rw [if_neg hid] at hxy
    exact hxy ▸ h x hx

theorem deactivateKiosk_countP (k : String) (ps : List Patient) :
    (deactivateKiosk k ps).countP (fun p => decide (p.kioskId = k ∧ p.isActive = true)) = 0 := by
  induction ps with
  | nil => rfl
  | cons p rest ih =>
    simp only [deactivateKiosk, List.map_cons, List.countP_cons] at *
    rw [ih]
    split
    · simp
    · rename_i hcond
      simp [hcond]

theorem completeHanging_countP (k : String) (ds : List Diagnosis) :
    (completeHanging k ds).countP
      (fun d => decide (d.kioskId = k) && ingestionStatus d.status) = 0 := by
  induction ds with
  | nil => rfl
  | cons d rest ih =>
    simp only [completeHanging, List.map_cons, List.countP_cons] at *
    rw [ih]
    split
    · simp [ingestionStatus]
    · rename_i hcond
      by_cases hk : d.kioskId = k
      · have hni : ingestionStatus d.status = false := by
          rcases Bool.eq_false_or_eq_true (ingestionStatus d.status) with h | h
          · exact absurd ⟨hk, h⟩ hcond
          · exact h
        simp [hni]
      · simp [hk]

theorem mem_completeHanging_of_not_ingestion (k : String) (ds : List Diagnosis)
    (d : Diagnosis) (hd : d ∈ ds) (hni : ingestionStatus d.status = false) :
    d ∈ completeHanging k ds := by
  have h2 := List.mem_map_of_mem
    (fun d => if d.kioskId = k ∧ ingestionStatus d.status = true then
      { d with status := Status.completed } else d) hd
  simpa [completeHanging, hni] using h2

theorem ingestStep_id (d : Diagnosis) (r : SensorPoint) : (ingestStep d r).id = d.id := by
  simp only [ingestStep]
  split <;> split <;> rfl

theorem ingestStep_commandExecuted (d : Diagnosis) (r : SensorPoint) :
    (ingestStep d r).commandExecuted = d.commandExecuted := by
  simp only [ingestStep]
  split <;> split <;> rfl

theorem ingestStep_sensorData (d : Diagnosis) (r : SensorPoint) :
    (ingestStep d r).sensorData = d.sensorData ++ [r] := by
  simp only [ingestStep]
  split <;> split <;> rfl

theorem ingestStep_predictedDisease (d : Diagnosis) (r : SensorPoint) :
    (ingestStep d r).predictedDisease = predictDisease r := by
  simp only [ingestStep]
  split <;> split <;> rfl

theorem ingestStep_dispensed_iff (d : Diagnosis) (r : SensorPoint) :
    (ingestStep d r).status = Status.medication_dispensed ↔
      d.status = Status.medication_dispensed := by
  simp only [ingestStep]
  split <;> split <;> simp_all

theorem ingestStep_reaches_pending (d : Diagnosis) (r : SensorPoint)
    (hst : d.status = Status.collecting_data)
    (hpred : predictDisease r ≠ "Undetermined") :
    (ingestStep d r).status = Status.pending_approval := by
  simp only [ingestStep]
  split
  · split <;> simp_all
  · rename_i hc
    exact absurd ⟨hst, hpred⟩ hc

theorem updateFirstPatient_inactive (ps : List Patient) (pid : Nat)
    (huniq : ps.countP (fun p => decide (p.id = pid)) ≤ 1) :
    ∀ q ∈ updateFirstPatient ps pid, q.id = pid → q.isActive = false := by
  induction ps with
  | nil =>
    intro q hq
    cases hq
  | cons p rest ih =>
    intro q hq hqid
    unfold updateFirstPatient at hq
    by_cases hpid : p.id = pid
    · rw [if_pos hpid] at hq
      rcases List.mem_cons.mp hq with hq | hq
      · rw [hq]
      · exfalso
        have h0 : rest.countP (fun p => decide (p.id = pid)) = 0 := by
          have h1 : (p :: rest).countP (fun q => decide (q.id = pid)) =
              rest.countP (fun q => decide (q.id = pid)) + 1 := by
            simp [List.countP_cons, hpid]
          rw [h1] at huniq
          omega
        have := List.countP_eq_zero.mp h0 q hq
        simp [hqid] at this
    · rw [if_neg hpid] at hq
      rcases List.mem_cons.mp hq with hq | hq
      · exact absurd (hq ▸ hqid) hpid
      · have huniq' : rest.countP (fun p => decide (p.id = pid)) ≤ 1 := by
          rw [List.countP_cons] at huniq
          omega
        exact ih huniq' q hq hqid

/-! Claim theorems. -/

/-- Claim C4 (code bug): on Scenario A's reading `{bpm:100, spo2:92,
temperature:38.0}` the classifier's stray early return
`if(temperature >=25) return "health is good";` fires before the Disease A
rule, so `predictDisease` yields `"health is good"` instead of `"Disease A"`
— a value outside the `predictedDisease` enum of the Diagnosis schema.  The
in-memory status update still advances the session to `pending_approval`. -/
theorem predict_scenarioA_health_good :
    predictDisease rScenarioA = "health is good" ∧
    predictDisease rScenarioA ≠ "Disease A" ∧
    predictDisease rScenarioA ∉ predictedDiseaseEnum ∧
    (ingestStep dCollect rScenarioA).status = Status.pending_approval := by
  refine ⟨rfl, by decide, by decide, by decide⟩

/-- Claim C5 (code bug): for the reading `{bpm:0, spo2:92, temperature:38}`
(bpm zero) the early return `if(temperature >=25) return "health is good";`
precedes the zero/NaN validation, so the label is `"health is good"` rather
than `"Undetermined"`, and the session status does not stay at
`collecting_data`: it is advanced to `pending_approval`. -/
theorem predict_zero_bpm_health_good :
    predictDisease rZeroBpm = "health is good" ∧
    predictDisease rZeroBpm ≠ "Undetermined" ∧
    predictDisease rZeroBpm ∉ predictedDiseaseEnum ∧
    (ingestStep dCollect rZeroBpm).status = Status.pending_approval ∧
    (ingestStep dCollect rZeroBpm).status ≠ Status.collecting_data := by
  refine ⟨rfl, by decide, by decide, by decide, by decide⟩

/-- Claim C1 counterexample: starting a new session on `K1` while a previous
Session is in the non-terminal status `approved` leaves that Session
`approved`, so two Sessions for `K1` are in a non-terminal status after
`StartSession` returns (the cleanup only completes `collecting_data`,
`prediction_made` and `pending_approval`). -/
theorem startSession_leaves_approved :
    isOkE (startSession stStale "Alice" 30 "" "K1" 7) = true ∧
    stAfterStart.diagnoses.countP
      (fun d => decide (d.kioskId = "K1" ∧ d.status ≠ Status.completed ∧
        d.status ≠ Status.medication_dispensed)) = 2 ∧
    dApproved1 ∈ stAfterStart.diagnoses ∧
    dApproved1.status = Status.approved := by
  refine ⟨rfl, by decide, by decide, rfl⟩

/-- Claim C2 counterexample: polling at a state whose only approved Session is
id 2 returns its command, but after a second approval (id 3, created later)
appears, the acknowledgement re-derives "most recent approved, unexecuted"
and confirms Session 3, not Session 2 — Session 2 stays unexecuted. -/
theorem confirm_rederive_race :
    getMotorCommand stStale "K1" = .ok "activate_motor_1" ∧
    confirmExecution stRace "K1" "motor_1_activated" = .ok (stRaceAfter, 3) ∧
    dApproved1 ∈ stRaceAfter.diagnoses ∧
    dApproved1.commandExecuted = false := by
  refine ⟨rfl, rfl, by decide, rfl⟩

/-- Claim C3 counterexample: after a first acknowledgement dispenses Session 2,
a second acknowledgement for the same kiosk is rejected with a 404-style
error instead of being a no-op returning the same session id. -/
theorem confirm_retry_errors :
    confirmExecution stStale "K1" "motor_1_activated" = .ok (stAfterConfirm, 2) ∧
    confirmExecution stAfterConfirm "K1" "motor_1_activated" =
      .error "No pending approved diagnosis found for this kiosk." := by
  refine ⟨rfl, rfl⟩

/-- Claim C1 (amended): after `StartSession(kioskId, ...)` returns, exactly one
Subject is active for the kiosk and exactly one Session for it is in an
ingestion-phase status (`collecting_data`, `prediction_made`,
`pending_approval`); previously existing Sessions in those three statuses are
completed, but Sessions in `approved` or `declined` are left untouched. -/
theorem startSession_cleanup (s : St) (name : String) (age : Nat) (phone k : String)
    (doc : Nat) (s' : St) (pid did : Nat)
    (hok : startSession s name age phone k doc = .ok (s', pid, did)) :
    activeSubjectCount s' k = 1 ∧ ingestionSessionCount s' k = 1 ∧
    ∀ d ∈ s.diagnoses, (d.status = Status.approved ∨ d.status = Status.declined) →
      d ∈ s'.diagnoses := by
  unfold startSession at hok
  split at hok
  · exact Except.noConfusion hok
  · simp only [Except.ok.injEq, Prod.mk.injEq] at hok
    obtain ⟨hs, -, -⟩ := hok
    subst hs
    refine ⟨?_, ?_, ?_⟩
    · unfold activeSubjectCount
      simp only [List.countP_append]
      rw [deactivateKiosk_countP]
      simp [List.countP_cons]
    · unfold ingestionSessionCount
      simp only [List.countP_append]
      rw [completeHanging_countP]
      simp [List.countP_cons, ingestionStatus]
    · intro d hd hst
      have hni : ingestionStatus d.status = false := by
        rcases hst with h | h <;> simp [ingestionStatus, h]
      exact List.mem_append_left _
        (mem_completeHanging_of_not_ingestion k s.diagnoses d hd hni)

/-- Claim C2 (amended): `ConfirmExecution` accepts no session id; it re-derives
its target as the most recently created Session for the kiosk with
`status = approved`, `commandExecuted = false` and a real command.  Whenever
such a strictly newest matching Session `d2` exists, it — and not any older
approval whose command may have been the one polled — is the Session that
gets confirmed. -/
theorem confirm_marks_latest (s : St) (k execStatus : String) (d2 : Diagnosis)
    (s' : St) (i : Nat)
    (hmem : d2 ∈ s.diagnoses) (hm : pendingCommandMatch k d2 = true)
    (hmax : ∀ e ∈ s.diagnoses, pendingCommandMatch k e = true →
      e = d2 ∨ e.createdAt < d2.createdAt)
    (hok : confirmExecution s k execStatus = .ok (s', i)) :
    i = d2.id := by
  unfold confirmExecution at hok
  split at hok
  · exact Except.noConfusion hok
  · cases hl : latestMatch (pendingCommandMatch k) s.diagnoses with
    | none =>
      rw [hl] at hok
      exact Except.noConfusion hok
    | some d =>
      rw [hl] at hok
      simp only [Except.ok.injEq, Prod.mk.injEq] at hok
      obtain ⟨-, hi⟩ := hok
      have hmem' := latestMatch_some_mem _ _ _ hl
      have hmax' := latestMatch_some_max _ _ _ hl
      rcases hmax d hmem'.1 hmem'.2 with heq | hlt
      · rw [← hi, heq]
      · exfalso
        have := hmax' d2 hmem hm
        omega

/-- Claim C3 (amended): once no Session for the kiosk matches "approved,
unexecuted, with a command" — in particular after the only approval has been
dispensed — a repeated acknowledgement does not mutate any Session; it fails
with the 404-style "no pending approved diagnosis" error instead of being a
no-op success returning the same session id. -/
theorem confirm_no_match_error (s : St) (k execStatus : String)
    (hk : ¬(k = "" ∨ execStatus = ""))
    (hno : ∀ d ∈ s.diagnoses, pendingCommandMatch k d = false) :
    confirmExecution s k execStatus =
      .error "No pending approved diagnosis found for this kiosk." := by
  unfold confirmExecution
  rw [if_neg hk, latestMatch_eq_none (pendingCommandMatch k) s.diagnoses hno]

/-- Claim C7: from `collecting_data`, a single `IngestReading` call whose
reading classifies to a determined label (anything other than
`"Undetermined"`) advances the Session to `pending_approval` within that one
call — the two consecutive status `if`s of `data_upload` both fire — and the
updated Session is stored; no second ingestion call is needed to leave
`prediction_made`. -/
theorem single_ingestion_pending (s : St) (k : String) (bpm spo2 temperature : Option ℚ)
    (p : Patient) (d : Diagnosis) (s' : St) (lbl : String)
    (hp : findActivePatient s k = some p)
    (hd : latestMatch (sessionQueryMatch p.id k) s.diagnoses = some d)
    (hst : d.status = Status.collecting_data)
    (hpred : predictDisease { bpm := bpm, spo2 := spo2, temperature := temperature } ≠
      "Undetermined")
    (hok : dataUpload s k bpm spo2 temperature = .ok (s', lbl)) :
    (ingestStep d { bpm := bpm, spo2 := spo2, temperature := temperature }).status =
      Status.pending_approval ∧
    ingestStep d { bpm := bpm, spo2 := spo2, temperature := temperature } ∈ s'.diagnoses := by
  refine ⟨ingestStep_reaches_pending d _ hst hpred, ?_⟩
  unfold dataUpload at hok
  split at hok
  · exact Except.noConfusion hok
  · rw [hp] at hok
    simp only [hd] at hok
    split at hok
    · simp only [Except.ok.injEq, Prod.mk.injEq] at hok
      obtain ⟨hs, -⟩ := hok
      subst hs
      have hmem := (latestMatch_some_mem _ _ _ hd).1
      exact mem_saveDiagnosis_of_id s.diagnoses d _ hmem (ingestStep_id d _).symm
    · exact Except.noConfusion hok

/-- Claim C10 counterexample: with an active Subject and no Session, the
numeric reading `{bpm:100, spo2:92, temperature:38}` computes the out-of-enum
label `"health is good"`, so the `save()` of the freshly built Session fails
schema validation and `IngestReading` fails with the route's 500 error —
contrary to the claim, no fresh Session is created and nothing is
persisted. -/
theorem ingestion_fallback_enum_500 :
    findActivePatient stNoDiag "K1" = some pOld ∧
    latestMatch (sessionQueryMatch pOld.id "K1") stNoDiag.diagnoses = none ∧
    predictDisease rScenarioA = "health is good" ∧
    predictDisease rScenarioA ∉ predictedDiseaseEnum ∧
    dataUpload stNoDiag "K1" (some 100) (some 92) (some 38) =
      .error "Server error processing sensor data" := by
  refine ⟨rfl, rfl, rfl, by decide, rfl⟩

/-- Claim C10 (amended): when a kiosk has an active Subject but no Session for
that Subject in an ingestion-phase status, `IngestReading` builds a fresh
Session for that Subject starting at `collecting_data` with the reading as
its whole `sensorData`; it succeeds and stores that Session exactly when the
computed label passes the schema's `predictedDisease` enum, while a reading
whose label is the out-of-enum `"health is good"` (any temperature ≥ 25)
makes `save()` throw: the route fails with its 500 error and persists
nothing. -/
theorem ingestion_fallback_creates (s : St) (k : String) (bpm spo2 temperature : Option ℚ)
    (p : Patient)
    (hval : ¬(k = "" ∨ bpm = none ∨ spo2 = none ∨ temperature = none))
    (hp : findActivePatient s k = some p)
    (hnone : latestMatch (sessionQueryMatch p.id k) s.diagnoses = none) :
    (predictDisease { bpm := bpm, spo2 := spo2, temperature := temperature } ∈
        predictedDiseaseEnum →
      dataUpload s k bpm spo2 temperature =
        .ok ({ s with
            diagnoses := s.diagnoses ++
              [ingestStep (freshDiagnosis s p k)
                { bpm := bpm, spo2 := spo2, temperature := temperature }],
            nextId := s.nextId + 1 },
          (ingestStep (freshDiagnosis s p k)
            { bpm := bpm, spo2 := spo2, temperature := temperature }).predictedDisease)) ∧
    (predictDisease { bpm := bpm, spo2 := spo2, temperature := temperature } ∉
        predictedDiseaseEnum →
      dataUpload s k bpm spo2 temperature =
        .error "Server error processing sensor data") ∧
    (freshDiagnosis s p k).status = Status.collecting_data ∧
    (freshDiagnosis s p k).patientId = p.id ∧
    (ingestStep (freshDiagnosis s p k)
      { bpm := bpm, spo2 := spo2, temperature := temperature }).sensorData =
      [{ bpm := bpm, spo2 := spo2, temperature := temperature }] := by
  refine ⟨?_, ?_, rfl, rfl, ?_⟩
  · intro henum
    unfold dataUpload
    rw [if_neg hval, hp]
    simp only [hnone]
    rw [if_pos ((ingestStep_predictedDisease (freshDiagnosis s p k) _).symm ▸ henum)]
  · intro henum
    unfold dataUpload
    rw [if_neg hval, hp]
    simp only [hnone]
    rw [if_neg ((ingestStep_predictedDisease (freshDiagnosis s p k) _).symm ▸ henum)]
  · rw [ingestStep_sensorData]
    rfl

/-- Claim C9: reviewing a `pending_approval` Session with decision
`"Disease A"` succeeds, sets `status = approved` and
`motorCommand = activate_motor_1`, deactivates the Session's Subject
(closing the kiosk to new readings), and the label-to-command table is
`"Disease A" → activate_motor_1`, `"Disease B" → activate_motor_2`, anything
else → `none`. -/
theorem approve_diseaseA (s : St) (i doc : Nat) (d : Diagnosis) (s' : St) (c : String)
    (hf : findDiagnosis s i doc = some d)
    (hst : d.status = Status.pending_approval)
    (huniq : s.patients.countP (fun p => decide (p.id = d.patientId)) ≤ 1)
    (hok : approveDiagnosis s i doc "Disease A" = .ok (s', c)) :
    c = "activate_motor_1" ∧
    { d with
        approvedDisease := "Disease A",
        status := Status.approved,
        motorCommand := "activate_motor_1" } ∈ s'.diagnoses ∧
    (∀ q ∈ s'.patients, q.id = d.patientId → q.isActive = false) ∧
    motorCommandFor "Disease A" = "activate_motor_1" ∧
    motorCommandFor "Disease B" = "activate_motor_2" ∧
    (∀ lbl, lbl ≠ "Disease A" → lbl ≠ "Disease B" → motorCommandFor lbl = "none") := by
  have hmemd := List.mem_of_find?_eq_some hf
  have hne : ¬(d.status = Status.approved ∨ d.status = Status.medication_dispensed) := by
    rw [hst]
    rintro (h | h) <;> cases h
  have hcmd : motorCommandFor "Disease A" = "activate_motor_1" := by decide
  simp only [approveDiagnosis] at hok
  rw [if_neg (show ¬(("Disease A" : String) = "") by decide)] at hok
  simp only [hf] at hok
  rw [if_neg hne] at hok
  simp only [Except.ok.injEq, Prod.mk.injEq] at hok
  obtain ⟨hs, hc⟩ := hok
  subst hs
  refine ⟨by rw [← hc, hcmd], ?_, ?_, hcmd, by decide, ?_⟩
  · rw [← hcmd]
    exact mem_saveDiagnosis_of_id s.diagnoses d _ hmemd rfl
  · exact updateFirstPatient_inactive s.patients d.patientId huniq
  · intro lbl h1 h2
    unfold motorCommandFor
    rw [if_neg h1, if_neg h2]

/-- Claim C8: the biconditional "`commandExecuted = true` iff
`status = medication_dispensed`" holds of every Session in any state
satisfying it and is preserved by every core operation: `StartSession`,
`IngestReading` (`data_upload`), `ReviewSession` (`approve`), `FetchCommand`
(`get_motor_command`, which is read-only), and `ConfirmExecution`
(`command_executed`, the only operation that sets either field, and it sets
both together). -/
theorem execInv_preserved (s : St) (h : execInv s) :
    (∀ name age phone k doc s' pid did,
      startSession s name age phone k doc = .ok (s', pid, did) → execInv s') ∧
    (∀ k bpm spo2 temperature s' lbl,
      dataUpload s k bpm spo2 temperature = .ok (s', lbl) → execInv s') ∧
    (∀ i doc lbl s' c, approveDiagnosis s i doc lbl = .ok (s', c) → execInv s') ∧
    (∀ k c, getMotorCommand s k = .ok c → execInv s) ∧
    (∀ k execStatus s' i, confirmExecution s k execStatus = .ok (s', i) → execInv s') := by
  refine ⟨?_, ?_, ?_, ?_, ?_⟩
  · -- StartSession
    intro name age phone k doc s' pid did hok
    unfold startSession at hok
    split at hok
    · exact Except.noConfusion hok
    · simp only [Except.ok.injEq, Prod.mk.injEq] at hok
      obtain ⟨hs, -, -⟩ := hok
      subst hs
      intro e he
      rcases List.mem_append.mp he with he | he
      · obtain ⟨x, hx, hxe⟩ := List.mem_map.mp he
        by_cases hcond : x.kioskId = k ∧ ingestionStatus x.status = true
        · rw [if_pos hcond] at hxe
          rw [← hxe]
          constructor
          · intro hcx
            exfalso
            have hx' := (h x hx).mp hcx
            rw [hx'] at hcond
            simp [ingestionStatus] at hcond
          · intro hst
            exact absurd hst (by simp)
        · rw [if_neg hcond] at hxe
          rw [← hxe]
          exact h x hx
      · rw [List.mem_singleton] at he
        rw [he]
        simp
  · -- IngestReading
    intro k bpm spo2 temperature s' lbl hok
    unfold dataUpload at hok
    split at hok
    · exact Except.noConfusion hok
    · cases hp : findActivePatient s k with
      | none =>
        rw [hp] at hok
        exact Except.noConfusion hok
      | some p =>
        rw [hp] at hok
        cases hd : latestMatch (sessionQueryMatch p.id k) s.diagnoses with
        | some d =>
          simp only [hd] at hok
          split at hok
          · simp only [Except.ok.injEq, Prod.mk.injEq] at hok
            obtain ⟨hs, -⟩ := hok
            subst hs
            have hPd := h d (latestMatch_some_mem _ _ _ hd).1
            intro e he
            refine saveDiagnosis_forall s.diagnoses _ h ?_ e he
            constructor
            · intro hc
              rw [ingestStep_commandExecuted] at hc
              exact (ingestStep_dispensed_iff d _).mpr (hPd.mp hc)
            · intro hst
              rw [ingestStep_commandExecuted]
              exact hPd.mpr ((ingestStep_dispensed_iff d _).mp hst)
          · exact Except.noConfusion hok
        | none =>
          simp only [hd] at hok
          split at hok
          · simp only [Except.ok.injEq, Prod.mk.injEq] at hok
            obtain ⟨hs, -⟩ := hok
            subst hs
            intro e he
            rcases List.mem_append.mp he with he | he
            · exact h e he
            · rw [List.mem_singleton] at he
              rw [he]
              constructor
              · intro hc
                rw [ingestStep_commandExecuted] at hc
                simp [freshDiagnosis] at hc
              · intro hst
                have hx := (ingestStep_dispensed_iff _ _).mp hst
                simp [freshDiagnosis] at hx
          · exact Except.noConfusion hok
  · -- ReviewSession
    intro i doc lbl s' c hok
    unfold approveDiagnosis at hok
    split at hok
    · exact Except.noConfusion hok
    · cases hf : findDiagnosis s i doc with
      | none =>
        rw [hf] at hok
        exact Except.noConfusion hok
      | some d =>
        rw [hf] at hok
        simp only [Except.ok.injEq, Prod.mk.injEq] at hok
        split at hok
        · exact Except.noConfusion hok
        · rename_i hgood
          simp only [Except.ok.injEq, Prod.mk.injEq] at hok
          obtain ⟨hs, -⟩ := hok
          subst hs
          have hdmem := List.mem_of_find?_eq_some hf
          have hcdf : d.commandExecuted = false := by
            rcases Bool.eq_false_or_eq_true d.commandExecuted with hb | hb
            · exact absurd (Or.inr ((h d hdmem).mp hb)) hgood
            · exact hb
          intro e he
          refine saveDiagnosis_forall s.diagnoses _ h ?_ e he
          constructor
          · intro hc
            exfalso
            rw [hcdf] at hc
            exact Bool.noConfusion hc
          · intro hst
            exact absurd hst (by simp)
  · -- FetchCommand is read-only
    intro k c hok
    exact h
  · -- ConfirmExecution
    intro k execStatus s' i hok
    unfold confirmExecution at hok
    split at hok
    · exact Except.noConfusion hok
    · cases hl : latestMatch (pendingCommandMatch k) s.diagnoses with
      | none =>
        rw [hl] at hok
        exact Except.noConfusion hok
      | some d =>
        rw [hl] at hok
        simp only [Except.ok.injEq, Prod.mk.injEq] at hok
        obtain ⟨hs, -⟩ := hok
        subst hs
        intro e he
        refine saveDiagnosis_forall s.diagnoses _ h ?_ e he
        constructor
        · intro _
          rfl
        · intro _
          rfl

/-! Witnesses: each theorem with hypotheses applied at a concrete state. -/

/-- Witness for `startSession_cleanup` at the state with one stale approved
Session on `K1`. -/
theorem startSession_cleanup_witness :
    startSession stStale "Alice" 30 "" "K1" 7 = .ok (stAfterStart, 4, 5) ∧
    (activeSubjectCount stAfterStart "K1" = 1 ∧
      ingestionSessionCount stAfterStart "K1" = 1 ∧
      ∀ d ∈ stStale.diagnoses,
        (d.status = Status.approved ∨ d.status = Status.declined) →
          d ∈ stAfterStart.diagnoses) :=
  ⟨by rfl, startSession_cleanup stStale "Alice" 30 "" "K1" 7 stAfterStart 4 5 (by rfl)⟩

/-- Witness for `confirm_marks_latest` at the race state: the newer approval
(id 3) is the one confirmed. -/
theorem confirm_marks_latest_witness :
    dApproved2 ∈ stRace.diagnoses ∧
    pendingCommandMatch "K1" dApproved2 = true ∧
    (∀ e ∈ stRace.diagnoses, pendingCommandMatch "K1" e = true →
      e = dApproved2 ∨ e.createdAt < dApproved2.createdAt) ∧
    confirmExecution stRace "K1" "motor_1_activated" = .ok (stRaceAfter, 3) ∧
    (3 : Nat) = dApproved2.id :=
  ⟨by decide, by decide, by decide, by rfl,
    confirm_marks_latest stRace "K1" "motor_1_activated" dApproved2 stRaceAfter 3
      (by decide) (by decide) (by decide) (by rfl)⟩

/-- Witness for `confirm_no_match_error` at the state reached after the only
approval has been dispensed. -/
theorem confirm_no_match_error_witness :
    ¬(("K1" : String) = "" ∨ ("done" : String) = "") ∧
    (∀ d ∈ stAfterConfirm.diagnoses, pendingCommandMatch "K1" d = false) ∧
    confirmExecution stAfterConfirm "K1" "done" =
      .error "No pending approved diagnosis found for this kiosk." :=
  ⟨by decide, by decide,
    confirm_no_match_error stAfterConfirm "K1" "done" (by decide) (by decide)⟩

/-- Witness for `single_ingestion_pending`: one upload of a Disease-B reading
moves the `collecting_data` Session to `pending_approval`. -/
theorem single_ingestion_pending_witness :
    findActivePatient stCollect "K1" = some pOld ∧
    latestMatch (sessionQueryMatch pOld.id "K1") stCollect.diagnoses = some dCollect ∧
    dCollect.status = Status.collecting_data ∧
    predictDisease rDiseaseB ≠ "Undetermined" ∧
    dataUpload stCollect "K1" (some 60) (some 97) (some 20) =
      .ok (stC7After, "Disease B") ∧
    ((ingestStep dCollect rDiseaseB).status = Status.pending_approval ∧
      ingestStep dCollect rDiseaseB ∈ stC7After.diagnoses) :=
  ⟨by rfl, by rfl, by rfl, by decide, by rfl,
    single_ingestion_pending stCollect "K1" (some 60) (some 97) (some 20) pOld dCollect
      stC7After "Disease B" (by rfl) (by rfl) (by rfl) (by decide) (by rfl)⟩

/-- Witness for `execInv_preserved` at a state with one approved, unexecuted
Session. -/
theorem execInv_preserved_witness :
    execInv stStale ∧
    ((∀ name age phone k doc s' pid did,
        startSession stStale name age phone k doc = .ok (s', pid, did) → execInv s') ∧
      (∀ k bpm spo2 temperature s' lbl,
        dataUpload stStale k bpm spo2 temperature = .ok (s', lbl) → execInv s') ∧
      (∀ i doc lbl s' c,
        approveDiagnosis stStale i doc lbl = .ok (s', c) → execInv s') ∧
      (∀ k c, getMotorCommand stStale k = .ok c → execInv stStale) ∧
      (∀ k execStatus s' i,
        confirmExecution stStale k execStatus = .ok (s', i) → execInv s')) :=
  ⟨by unfold execInv; decide, execInv_preserved stStale (by unfold execInv; decide)⟩

/-- Witness for `approve_diseaseA` on a `pending_approval` Session. -/
theorem approve_diseaseA_witness :
    findDiagnosis stPending 2 7 = some dPending ∧
    dPending.status = Status.pending_approval ∧
    stPending.patients.countP (fun p => decide (p.id = dPending.patientId)) ≤ 1 ∧
    approveDiagnosis stPending 2 7 "Disease A" =
      .ok (stAfterApprove, "activate_motor_1") ∧
    (("activate_motor_1" : String) = "activate_motor_1" ∧
      { dPending with
          approvedDisease := "Disease A",
          status := Status.approved,
          motorCommand := "activate_motor_1" } ∈ stAfterApprove.diagnoses ∧
      (∀ q ∈ stAfterApprove.patients, q.id = dPending.patientId → q.isActive = false) ∧
      motorCommandFor "Disease A" = "activate_motor_1" ∧
      motorCommandFor "Disease B" = "activate_motor_2" ∧
      (∀ lbl, lbl ≠ "Disease A" → lbl ≠ "Disease B" → motorCommandFor lbl = "none")) :=
  ⟨by rfl, by rfl, by decide, by rfl,
    approve_diseaseA stPending 2 7 dPending stAfterApprove "activate_motor_1"
      (by rfl) (by rfl) (by decide) (by rfl)⟩

/-- Witness for `ingestion_fallback_creates`: a kiosk with an active Subject
and no Session gets a fresh `collecting_data` Session holding the reading
whose in-enum label passes the schema validation. -/
theorem ingestion_fallback_creates_witness :
    ¬(("K1" : String) = "" ∨ (some (80 : ℚ)) = none ∨ (some (97 : ℚ)) = none ∨
      (some (20 : ℚ)) = none) ∧
    findActivePatient stNoDiag "K1" = some pOld ∧
    latestMatch (sessionQueryMatch pOld.id "K1") stNoDiag.diagnoses = none ∧
    ((predictDisease rUndet ∈ predictedDiseaseEnum →
      dataUpload stNoDiag "K1" (some 80) (some 97) (some 20) =
        .ok ({ stNoDiag with
            diagnoses := stNoDiag.diagnoses ++
              [ingestStep (freshDiagnosis stNoDiag pOld "K1") rUndet],
            nextId := stNoDiag.nextId + 1 },
          (ingestStep (freshDiagnosis stNoDiag pOld "K1") rUndet).predictedDisease)) ∧
      (predictDisease rUndet ∉ predictedDiseaseEnum →
        dataUpload stNoDiag "K1" (some 80) (some 97) (some 20) =
          .error "Server error processing sensor data") ∧
      (freshDiagnosis stNoDiag pOld "K1").status = Status.collecting_data ∧
      (freshDiagnosis stNoDiag pOld "K1").patientId = pOld.id ∧
      (ingestStep (freshDiagnosis stNoDiag pOld "K1") rUndet).sensorData = [rUndet]) :=
  ⟨by decide, by rfl, by rfl,
    ingestion_fallback_creates stNoDiag "K1" (some 80) (some 97) (some 20) pOld
      (by decide) (by rfl) (by rfl)⟩

/-- `temp37_8` is the value `37.8 = 378/10` written by the source. -/
theorem temp37_8_eq : temp37_8 = 378 / 10 := by
  have h1 : temp37_8 = Rat.divInt 189 5 := Rat.mk'_eq_divInt
  rw [h1, Rat.divInt_eq_div]
  norm_num
